import Mathlib

/-!
Shallow embedding of the data-preparation core of the fintech dashboard
(src/app.py): the loader/cleaner `load_data`, the filter block of `main`,
and the aggregators `kpis`, the `trends_page` time series and the
`value_counts`-based top-N summaries, together with proofs of the
specified properties.
-/

/-- A raw cell of the `Year` column as produced by the CSV reader: an
already-parsed number, an unparseable text entry, or a missing value (NaN).
`pd.to_numeric(..., errors='coerce')` turns `text` and `missing` into null. -/
inductive RawCell where
  | num (n : Int)
  | text (s : String)
  | missing
deriving DecidableEq

/-- One raw row of the CSV file before cleaning.  String cells are `none`
when the cell is missing (NaN in pandas).  Numeric cells are rationals. -/
structure RawRecord where
  fintechUsed : Option String
  country : Option String
  gender : Option String
  ageGroup : Option String
  useCase1 : Option String
  useCase2 : Option String
  urbanRural : Option String
  phoneType : Option String
  barrier : Option String
  year : RawCell
  monthlyTransactions : ℚ
  avgTransactionValue : ℚ
deriving DecidableEq

/-- A raw dataframe: which columns are present in the file, plus the rows.
When a `has...` flag is `false` the corresponding field of every row is
meaningless (the column does not exist) and no operation may read it. -/
structure RawFrame where
  hasFintechUsed : Bool
  hasCountry : Bool
  hasGender : Bool
  hasAgeGroup : Bool
  hasUseCase1 : Bool
  hasUseCase2 : Bool
  hasUrbanRural : Bool
  hasPhoneType : Bool
  hasBarrier : Bool
  hasYear : Bool
  hasMonthlyTransactions : Bool
  hasAvgTransactionValue : Bool
  records : List RawRecord
deriving DecidableEq

/-- One cleaned row, as produced by `load_data`: the columns in the
fillna list hold plain strings, `Barrier` (not in that list) keeps its
optional value, `Year` is numeric-or-null after coercion. -/
structure Record where
  fintechUsed : String
  country : String
  gender : String
  ageGroup : String
  useCase1 : String
  useCase2 : String
  urbanRural : String
  phoneType : String
  barrier : Option String
  year : Option Int
  monthlyTransactions : ℚ
  avgTransactionValue : ℚ
deriving DecidableEq

/-- A cleaned dataframe: column-presence flags plus the ordered rows. -/
structure Dataset where
  hasFintechUsed : Bool
  hasCountry : Bool
  hasGender : Bool
  hasAgeGroup : Bool
  hasUseCase1 : Bool
  hasUseCase2 : Bool
  hasUrbanRural : Bool
  hasPhoneType : Bool
  hasBarrier : Bool
  hasYear : Bool
  hasMonthlyTransactions : Bool
  hasAvgTransactionValue : Bool
  records : List Record
deriving DecidableEq

/-- `pd.to_numeric(df['Year'], errors='coerce')` on one cell: parsed numbers
survive, unparseable text and missing values become null. -/
def coerceYear : RawCell → Option Int
  | RawCell.num n => some n
  | RawCell.text _ => none
  | RawCell.missing => none

/-- `fillna('Unknown').astype(str)` on one cell. -/
def fillUnknown (v : Option String) : String := v.getD "Unknown"

/-- Cleaning of one row by `load_data` (src/app.py lines 25-41): the fixed
list of string columns is filled with "Unknown", `Barrier` is not in that
list and is left untouched, `Year` is coerced, and the numeric columns
`Monthly_Transactions` / `Avg_Transaction_Value` are created as 0 when the
column was absent from the file. -/
def cleanRecord (f : RawFrame) (r : RawRecord) : Record :=
  { fintechUsed := fillUnknown r.fintechUsed
    country := fillUnknown r.country
    gender := fillUnknown r.gender
    ageGroup := fillUnknown r.ageGroup
    useCase1 := fillUnknown r.useCase1
    useCase2 := fillUnknown r.useCase2
    urbanRural := fillUnknown r.urbanRural
    phoneType := fillUnknown r.phoneType
    barrier := r.barrier
    year := coerceYear r.year
    monthlyTransactions := if f.hasMonthlyTransactions then r.monthlyTransactions else 0
    avgTransactionValue := if f.hasAvgTransactionValue then r.avgTransactionValue else 0 }

/-- The filesystem visible to `load_data`: the raw frames by path.  A path
that is not in the list does not exist / is unreadable. -/
def FileSystem : Type := List (String × RawFrame)

/-- `load_data(path)` (src/app.py lines 22-42): read the CSV at `path`
(failing with `DataUnavailable` when it is missing), coerce `Year`,
fill the fixed list of string columns, and create the numeric columns
`Monthly_Transactions` and `Avg_Transaction_Value` when absent. -/
def load_data (fs : FileSystem) (path : String) : Except String Dataset :=
  match List.lookup path fs with
  | none => Except.error "DataUnavailable"
  | some f => Except.ok
      { hasFintechUsed := f.hasFintechUsed
        hasCountry := f.hasCountry
        hasGender := f.hasGender
        hasAgeGroup := f.hasAgeGroup
        hasUseCase1 := f.hasUseCase1
        hasUseCase2 := f.hasUseCase2
        hasUrbanRural := f.hasUrbanRural
        hasPhoneType := f.hasPhoneType
        hasBarrier := f.hasBarrier
        hasYear := f.hasYear
        hasMonthlyTransactions := true
        hasAvgTransactionValue := true
        records := f.records.map (cleanRecord f) }

instance {ε α : Type} [DecidableEq ε] [DecidableEq α] : DecidableEq (Except ε α) :=
  fun x y =>
    match x, y with
    | Except.ok a, Except.ok b =>
      if h : a = b then isTrue (by rw [h]) else isFalse (by intro hc; cases hc; exact h rfl)
    | Except.error a, Except.error b =>
      if h : a = b then isTrue (by rw [h]) else isFalse (by intro hc; cases hc; exact h rfl)
    | Except.ok _, Except.error _ => isFalse (by intro hc; cases hc)
    | Except.error _, Except.ok _ => isFalse (by intro hc; cases hc)

/-- Fuel-driven helper for `uniqueKeys` (structural recursion so that the
kernel can evaluate it; the fuel is always at least the list length). -/
def uniqueKeysF {α : Type} [DecidableEq α] : Nat → List α → List α
  | _, [] => []
  | 0, _ :: _ => []
  | Nat.succ n, x :: xs => x :: uniqueKeysF n (xs.filter (fun y => !decide (y = x)))

/-- The distinct values of a list in order of first occurrence (the key
order of a pandas hash-based grouping over an object column). -/
def uniqueKeys {α : Type} [DecidableEq α] (l : List α) : List α :=
  uniqueKeysF l.length l

/-- ASCII lowercasing of a string, character by character (the behavior of
`str.lower()` on the ASCII values this dataset uses). -/
def strLower (s : String) : String := String.mk (s.data.map Char.toLower)

/-- `df['Fintech_Used'].str.lower() == 'yes'` on one row. -/
def isYes (r : Record) : Bool := strLower r.fintechUsed == "yes"

/-- `groupby('Year').size()` over a row list: one `(year, group size)` pair
per distinct non-null year (rows with null `Year` are dropped by pandas
groupby). -/
def byYearSizes (rs : List Record) : List (Int × Nat) :=
  (uniqueKeys (rs.filterMap (fun r => r.year))).map
    (fun y => (y, (rs.filter (fun r => decide (r.year = some y))).length))

/-- Arithmetic mean of a list of natural numbers, as a rational
(`Series.mean()`; `0/0 = 0` for the empty list, matching the guarded use). -/
def natListMean (l : List Nat) : ℚ := (l.sum : ℚ) / (l.length : ℚ)

/-- The KPI bundle returned by `kpis`. -/
structure KPI where
  total : Nat
  fintechCount : Nat
  adoptionRate : ℚ
  monthlyAvgUsers : ℚ
  totalCountries : Nat
deriving DecidableEq

/-- `kpis(df)` (src/app.py lines 45-57).  Line 47 guards a missing
`Fintech_Used` column (empty selection), but line 53 accesses
`df['Fintech_Used']` unconditionally inside the `Year` branch, so a frame
with a `Year` column and no `Fintech_Used` column raises `KeyError`. -/
def kpis (d : Dataset) : Except String KPI :=
  if d.hasYear && !d.hasFintechUsed then Except.error "KeyError: Fintech_Used"
  else
    let total := d.records.length
    let yesRecords := if d.hasFintechUsed then d.records.filter isYes else []
    let fintechCount := yesRecords.length
    let adoptionRate : ℚ := if total = 0 then 0 else (fintechCount : ℚ) / (total : ℚ) * 100
    let sizes := byYearSizes yesRecords
    let monthlyAvgUsers : ℚ :=
      if d.hasYear then (if sizes.isEmpty then 0 else natListMean (sizes.map Prod.snd)) else 0
    let totalCountries :=
      if d.hasCountry then (uniqueKeys (d.records.map (fun r => r.country))).length else 0
    Except.ok
      { total := total
        fintechCount := fintechCount
        adoptionRate := adoptionRate
        monthlyAvgUsers := monthlyAvgUsers
        totalCountries := totalCountries }

/-- The filter selections gathered by `main` (src/app.py lines 292-313):
optional Country/Gender/Age_Group/Urban_Rural strings (the selectbox value,
which may be the sentinel "All") and an optional inclusive Year range. -/
structure FilterSpec where
  country : Option String
  years : Option (Int × Int)
  gender : Option String
  ageGroup : Option String
  urbanRural : Option String
deriving DecidableEq

/-- Python truthiness test `if sel and sel != 'All'` for a selectbox value:
`None`, the empty string and the sentinel "All" leave the data unfiltered. -/
def truthySel (v : Option String) : Bool :=
  match v with
  | some s => !(s == "") && !(s == "All")
  | none => false

/-- One equality-filter step of `main` (for example lines 317-318):
`if sel and sel != 'All': df = df[df[col] == sel]`.  The column access
raises `KeyError` when the column is absent. -/
def eqFilter (present : Bool) (col : String) (sel : Option String)
    (get : Record → String) (rs : List Record) : Except String (List Record) :=
  if truthySel sel then
    if present then Except.ok (rs.filter (fun r => get r == sel.getD ""))
    else Except.error ("KeyError: " ++ col)
  else Except.ok rs

/-- The Year-range predicate `(df['Year'] >= lo) & (df['Year'] <= hi)` on one
row: comparisons with a null (NaN) year are false in pandas. -/
def yearInRange (lo hi : Int) (r : Record) : Bool :=
  match r.year with
  | some y => decide (lo ≤ y ∧ y ≤ hi)
  | none => false

/-- The Year-range filter step of `main` (lines 319-320):
`if years is not None: df = df[(df['Year'] >= lo) & (df['Year'] <= hi)]`. -/
def yearFilter (present : Bool) (sel : Option (Int × Int)) (rs : List Record) :
    Except String (List Record) :=
  match sel with
  | some lohi =>
    if present then Except.ok (rs.filter (yearInRange lohi.1 lohi.2))
    else Except.error "KeyError: Year"
  | none => Except.ok rs

/-- The filter block of `main` (src/app.py lines 315-326): the five optional
filters applied in sequence over a copy of the loaded dataframe. -/
def applyFilters (d : Dataset) (s : FilterSpec) : Except String Dataset :=
  match eqFilter d.hasCountry "Country" s.country (fun r => r.country) d.records with
  | Except.error e => Except.error e
  | Except.ok rs1 =>
  match yearFilter d.hasYear s.years rs1 with
  | Except.error e => Except.error e
  | Except.ok rs2 =>
  match eqFilter d.hasGender "Gender" s.gender (fun r => r.gender) rs2 with
  | Except.error e => Except.error e
  | Except.ok rs3 =>
  match eqFilter d.hasAgeGroup "Age_Group" s.ageGroup (fun r => r.ageGroup) rs3 with
  | Except.error e => Except.error e
  | Except.ok rs4 =>
  match eqFilter d.hasUrbanRural "Urban_Rural" s.urbanRural (fun r => r.urbanRural) rs4 with
  | Except.error e => Except.error e
  | Except.ok rs5 => Except.ok { d with records := rs5 }

/-- The spec-side per-field predicate: an active (non-null, non-"All",
non-empty) selection constrains the column by exact equality, anything else
is no constraint. -/
def eqPred (sel : Option String) (get : Record → String) (r : Record) : Bool :=
  if truthySel sel then get r == sel.getD "" else true

/-- The spec-side Year predicate: an active range constrains by inclusive
membership; rows with null Year never satisfy an active range. -/
def yearPred (sel : Option (Int × Int)) (r : Record) : Bool :=
  match sel with
  | some lohi => yearInRange lohi.1 lohi.2 r
  | none => true

/-- The spec-side description of the filter engine: a row survives iff it
satisfies every active predicate, composed as logical AND. -/
def satisfiesSpec (s : FilterSpec) (r : Record) : Bool :=
  eqPred s.country (fun x => x.country) r
    && yearPred s.years r
    && eqPred s.gender (fun x => x.gender) r
    && eqPred s.ageGroup (fun x => x.ageGroup) r
    && eqPred s.urbanRural (fun x => x.urbanRural) r

/-- The empty filter spec: nothing selected. -/
def emptySpec : FilterSpec :=
  { country := none, years := none, gender := none, ageGroup := none, urbanRural := none }

/-- The all-"All" filter spec: every selectbox left on its sentinel. -/
def allAllSpec : FilterSpec :=
  { country := some "All", years := none, gender := some "All"
    ageGroup := some "All", urbanRural := some "All" }

/-- One row of the `trends_page` time series (src/app.py lines 150-154). -/
structure TSRow where
  year : Int
  total : Nat
  fintechUsers : Nat
  adoptionRate : ℚ
deriving DecidableEq

/-- `Int` ordering as the relation used to sort year keys. -/
def intLe (a b : Int) : Prop := a ≤ b

instance : DecidableRel intLe := fun a b => by unfold intLe; infer_instance

/-- The time-series computation of `trends_page` (src/app.py lines 146-154):
drop rows with null Year, group total and fintech-user counts per year,
left-merge with fillna(0), sort ascending by year, and derive the per-year
adoption rate.  `df_year['Fintech_Used']` raises when the column is absent. -/
def time_series (d : Dataset) : Except String (List TSRow) :=
  if d.hasYear then
    if d.hasFintechUsed then
      let rows := d.records.filter (fun r => r.year.isSome)
      let years := List.insertionSort intLe (uniqueKeys (rows.filterMap (fun r => r.year)))
      Except.ok (years.map (fun y =>
        let tot := (rows.filter (fun r => decide (r.year = some y))).length
        let fin := (rows.filter (fun r => decide (r.year = some y)) |>.filter isYes).length
        { year := y
          total := tot
          fintechUsers := fin
          adoptionRate := (fin : ℚ) / (tot : ℚ) * 100 }))
    else Except.error "KeyError: Fintech_Used"
  else Except.error "MissingColumn: Year"

/-- `replace('nan', 'Unknown')` on one cell value. -/
def replaceNan (s : String) : String := if s == "nan" then "Unknown" else s

/-- The value-counts ordering: larger counts first, ties by first
occurrence in the underlying values. -/
def vcRel (xs : List String) (p q : String × Nat) : Prop :=
  q.2 < p.2 ∨ (q.2 = p.2 ∧ xs.indexOf p.1 ≤ xs.indexOf q.1)

instance (xs : List String) : DecidableRel (vcRel xs) := fun p q => by
  unfold vcRel; infer_instance

/-- Modelled from the spec: pandas `Series.value_counts()` over an object
column — counts per distinct value, descending by count, ties broken by the
order of first occurrence.  (pandas counts in encounter order with a hash
table and then sorts by count.) -/
def value_counts (xs : List String) : List (String × Nat) :=
  List.insertionSort (vcRel xs) ((uniqueKeys xs).map (fun v => (v, xs.count v)))

/-- `df[col].replace('nan', 'Unknown').value_counts().head(n)` as used by
`usecases_page` (src/app.py lines 207-212) and `conclusion_page`
(lines 228-235). -/
def top_n_by_frequency (xs : List String) (n : Nat) : List (String × Nat) :=
  (value_counts (xs.map replaceNan)).take n

/-- Modelled from the spec: the per-path memoization contract of the cache
decorator on `load_data` (`st.cache_data`, external to src) — "Result must
be cached/memoized per distinct path within a process so repeated calls do
not re-read the file".  `fileReads` counts filesystem accesses. -/
structure CacheState where
  entries : List (String × Dataset)
  fileReads : Nat
deriving DecidableEq

/-- One call of the cached loader: a cache hit returns the stored dataset
without touching the filesystem; a miss runs `load_data` (one filesystem
access) and stores a successful result. -/
def load_data_cached (fs : FileSystem) (path : String) (st : CacheState) :
    Except String Dataset × CacheState :=
  match List.lookup path st.entries with
  | some d => (Except.ok d, st)
  | none =>
    match load_data fs path with
    | Except.ok d =>
      (Except.ok d, { entries := (path, d) :: st.entries, fileReads := st.fileReads + 1 })
    | Except.error e =>
      (Except.error e, { entries := st.entries, fileReads := st.fileReads + 1 })

theorem mem_uniqueKeysF {α : Type} [DecidableEq α] :
    ∀ (n : Nat) (l : List α) (a : α), l.length ≤ n → (a ∈ uniqueKeysF n l ↔ a ∈ l)
  | _, [], a, _ => by simp [uniqueKeysF]
  | 0, x :: xs, a, h => by simp at h
  | Nat.succ n, x :: xs, a, h => by
    have hlen : (xs.filter (fun y => !decide (y = x))).length ≤ n :=
      le_trans (List.length_filter_le _ _) (Nat.le_of_succ_le_succ h)
    have ih := mem_uniqueKeysF n (xs.filter (fun y => !decide (y = x))) a hlen
    by_cases hax : a = x
    · subst hax; simp [uniqueKeysF]
    · simp [uniqueKeysF, ih, hax, List.mem_filter]

theorem nodup_uniqueKeysF {α : Type} [DecidableEq α] :
    ∀ (n : Nat) (l : List α), l.length ≤ n → (uniqueKeysF n l).Nodup
  | _, [], _ => by simp [uniqueKeysF]
  | 0, _ :: _, h => by simp at h
  | Nat.succ n, x :: xs, h => by
    have hlen : (xs.filter (fun y => !decide (y = x))).length ≤ n :=
      le_trans (List.length_filter_le _ _) (Nat.le_of_succ_le_succ h)
    have ihn := nodup_uniqueKeysF n _ hlen
    have hx : x ∉ uniqueKeysF n (xs.filter (fun y => !decide (y = x))) := by
      intro hmem
      have hmem' := (mem_uniqueKeysF n _ x hlen).mp hmem
      simp [List.mem_filter] at hmem'
    simp [uniqueKeysF, List.nodup_cons, hx, ihn]

theorem length_filter_eq_add_ne {α : Type} [DecidableEq α] (x : α) (ys : List α) :
    ys.length = (ys.filter (fun y => y == x)).length
      + (ys.filter (fun y => !decide (y = x))).length := by
  induction ys with
  | nil => simp
  | cons b bs ihb => by_cases hbx : b = x <;> simp [List.filter_cons, hbx, ihb] <;> omega

theorem sum_counts_uniqueKeysF {α : Type} [DecidableEq α] :
    ∀ (n : Nat) (l : List α), l.length ≤ n →
      ((uniqueKeysF n l).map (fun y => l.count y)).sum = l.length
  | _, [], _ => by simp [uniqueKeysF]
  | 0, _ :: _, h => by simp at h
  | Nat.succ n, x :: xs, h => by
    have hlen : (xs.filter (fun y => !decide (y = x))).length ≤ n :=
      le_trans (List.length_filter_le _ _) (Nat.le_of_succ_le_succ h)
    have ih := sum_counts_uniqueKeysF n _ hlen
    have hcongr :
        (uniqueKeysF n (xs.filter (fun y => !decide (y = x)))).map
            (fun y => (x :: xs).count y)
          = (uniqueKeysF n (xs.filter (fun y => !decide (y = x)))).map
              (fun y => (xs.filter (fun y => !decide (y = x))).count y) := by
      apply List.map_congr_left
      intro a ha
      have hmem := (mem_uniqueKeysF n _ a hlen).mp ha
      have hne : a ≠ x := by
        simp [List.mem_filter] at hmem
        exact hmem.2
      rw [List.count_cons_of_ne hne,
        ← List.count_filter (p := fun y => !decide (y = x)) (l := xs) (by simp [hne])]
    have hsplit := length_filter_eq_add_ne x xs
    have hcount : xs.count x = (xs.filter (fun y => y == x)).length := by
      rw [List.count_eq_countP, List.countP_eq_length_filter]
    simp only [uniqueKeysF, List.map_cons, List.sum_cons, List.count_cons_self, hcongr, ih,
      List.length_cons]
    omega

theorem mem_uniqueKeys {α : Type} [DecidableEq α] (l : List α) (a : α) :
    a ∈ uniqueKeys l ↔ a ∈ l :=
  mem_uniqueKeysF _ _ _ le_rfl

theorem nodup_uniqueKeys {α : Type} [DecidableEq α] (l : List α) :
    (uniqueKeys l).Nodup :=
  nodup_uniqueKeysF _ _ le_rfl

theorem sum_counts_uniqueKeys {α : Type} [DecidableEq α] (l : List α) :
    ((uniqueKeys l).map (fun y => l.count y)).sum = l.length :=
  sum_counts_uniqueKeysF _ _ le_rfl

theorem eqFilter_ok {present : Bool} {col : String} {sel : Option String}
    {get : Record → String} {rs out : List Record}
    (h : eqFilter present col sel get rs = Except.ok out) :
    out = rs.filter (eqPred sel get) ∧ (truthySel sel = true → present = true) := by
  by_cases ht : truthySel sel = true
  · cases hp : present with
    | false =>
      rw [hp] at h
      simp [eqFilter, ht] at h
    | true =>
      rw [hp] at h
      simp only [eqFilter, ht, if_true] at h
      refine ⟨?_, fun _ => rfl⟩
      have : rs.filter (fun r => get r == sel.getD "") = out := by
        simpa using h
      rw [← this]
      apply List.filter_congr
      intro a _
      simp [eqPred, ht]
  · simp only [eqFilter, ht, if_false, Bool.not_eq_true] at h
    rw [if_neg (by simp [Bool.not_eq_true] at ht; simp [ht])] at h
    refine ⟨?_, fun hcontra => absurd hcontra ht⟩
    have hout : rs = out := by simpa using h
    rw [← hout]
    have : eqPred sel get = (fun _ : Record => true) := by
      funext a
      simp [eqPred, ht]
    rw [this, List.filter_true]

theorem yearFilter_ok {present : Bool} {sel : Option (Int × Int)} {rs out : List Record}
    (h : yearFilter present sel rs = Except.ok out) :
    out = rs.filter (yearPred sel) ∧ (sel.isSome = true → present = true) := by
  match hsel : sel with
  | none =>
    simp only [yearFilter] at h
    refine ⟨?_, by simp⟩
    have hout : rs = out := by simpa using h
    rw [← hout]
    have : yearPred none = (fun _ : Record => true) := by
      funext a
      simp [yearPred]
    rw [this, List.filter_true]
  | some lohi =>
    cases hp : present with
    | false =>
      rw [hp] at h
      simp [yearFilter] at h
    | true =>
      rw [hp] at h
      simp only [yearFilter] at h
      refine ⟨?_, fun _ => rfl⟩
      have : rs.filter (yearInRange lohi.1 lohi.2) = out := by simpa using h
      rw [← this]
      apply List.filter_congr
      intro a _
      simp [yearPred]

theorem applyFilters_ok {d : Dataset} {s : FilterSpec} {out : Dataset}
    (h : applyFilters d s = Except.ok out) :
    out = { d with records := d.records.filter (satisfiesSpec s) }
      ∧ (truthySel s.country = true → d.hasCountry = true)
      ∧ (s.years.isSome = true → d.hasYear = true)
      ∧ (truthySel s.gender = true → d.hasGender = true)
      ∧ (truthySel s.ageGroup = true → d.hasAgeGroup = true)
      ∧ (truthySel s.urbanRural = true → d.hasUrbanRural = true) := by
  unfold applyFilters at h
  split at h
  next e h1 => simp at h
  next rs1 h1 =>
  split at h
  next e h2 => simp at h
  next rs2 h2 =>
  split at h
  next e h3 => simp at h
  next rs3 h3 =>
  split at h
  next e h4 => simp at h
  next rs4 h4 =>
  split at h
  next e h5 => simp at h
  next rs5 h5 =>
  have hout : out = { d with records := rs5 } := by
    cases h
    rfl
  obtain ⟨e1, hc1⟩ := eqFilter_ok h1
  obtain ⟨e2, hc2⟩ := yearFilter_ok h2
  obtain ⟨e3, hc3⟩ := eqFilter_ok h3
  obtain ⟨e4, hc4⟩ := eqFilter_ok h4
  obtain ⟨e5, hc5⟩ := eqFilter_ok h5
  refine ⟨?_, hc1, hc2, hc3, hc4, hc5⟩
  rw [hout, e5, e4, e3, e2, e1]
  simp only [List.filter_filter]
  congr 1
  apply List.filter_congr
  intro a _
  simp only [satisfiesSpec]
  cases eqPred s.country (fun x => x.country) a <;>
    cases yearPred s.years a <;>
    cases eqPred s.gender (fun x => x.gender) a <;>
    cases eqPred s.ageGroup (fun x => x.ageGroup) a <;>
    cases eqPred s.urbanRural (fun x => x.urbanRural) a <;>
    rfl

theorem applyFilters_empty (d : Dataset) : applyFilters d emptySpec = Except.ok d := by
  simp [applyFilters, eqFilter, yearFilter, emptySpec, truthySel]

theorem applyFilters_allAll (d : Dataset) : applyFilters d allAllSpec = Except.ok d := by
  simp [applyFilters, eqFilter, yearFilter, allAllSpec, truthySel]

/-- A row of the survey with the given Fintech_Used / Country / Gender /
Age_Group / Urban_Rural / Year values (used as concrete test data). -/
def mkRecord (fu co ge ag ur : String) (yr : Option Int) : Record :=
  { fintechUsed := fu, country := co, gender := ge, ageGroup := ag
    useCase1 := "Payments", useCase2 := "Savings", urbanRural := ur
    phoneType := "Smartphone", barrier := none, year := yr
    monthlyTransactions := 0, avgTransactionValue := 0 }

/-- A dataset in which every expected column is present (concrete test data). -/
def allColsDataset (rs : List Record) : Dataset :=
  { hasFintechUsed := true, hasCountry := true, hasGender := true, hasAgeGroup := true
    hasUseCase1 := true, hasUseCase2 := true, hasUrbanRural := true, hasPhoneType := true
    hasBarrier := true, hasYear := true, hasMonthlyTransactions := true
    hasAvgTransactionValue := true, records := rs }

/-- C3: whenever the filter block succeeds, the surviving records are exactly
the records of the input that satisfy every active predicate of the spec
(exact equality on Country/Gender/Age_Group/Urban_Rural, inclusive Year-range
membership), composed as logical AND, in their original relative order
(a sublist of the input); and the empty spec (all fields absent, or every
selectbox on the sentinel "All") returns the dataset unchanged. -/
theorem C3_filter_conjunction_order (d : Dataset) (s : FilterSpec) (out : Dataset)
    (h : applyFilters d s = Except.ok out) :
    out.records = d.records.filter (fun r => satisfiesSpec s r)
      ∧ out.records.Sublist d.records
      ∧ applyFilters d emptySpec = Except.ok d
      ∧ applyFilters d allAllSpec = Except.ok d := by
  obtain ⟨hout, -⟩ := applyFilters_ok h
  have hrec : out.records = d.records.filter (satisfiesSpec s) := by rw [hout]
  exact ⟨hrec, by rw [hrec]; exact List.filter_sublist _,
    applyFilters_empty d, applyFilters_allAll d⟩

def w3r1 : Record := mkRecord "yes" "Kenya" "Female" "18-24" "Urban" (some 2020)

def w3r2 : Record := mkRecord "no" "Ghana" "Male" "25-34" "Rural" (some 2021)

def w3d : Dataset := allColsDataset [w3r1, w3r2]

def w3s : FilterSpec :=
  { country := some "Kenya", years := none, gender := none, ageGroup := none
    urbanRural := none }

/-- Witness for C3 at a concrete dataset and country filter. -/
theorem C3_witness :
    applyFilters w3d w3s = Except.ok (allColsDataset [w3r1])
      ∧ ((allColsDataset [w3r1]).records
            = w3d.records.filter (fun r => satisfiesSpec w3s r)
          ∧ (allColsDataset [w3r1]).records.Sublist w3d.records
          ∧ applyFilters w3d emptySpec = Except.ok w3d
          ∧ applyFilters w3d allAllSpec = Except.ok w3d) :=
  ⟨by decide, C3_filter_conjunction_order w3d w3s (allColsDataset [w3r1]) (by decide)⟩

def cxNoCountry : Dataset :=
  { allColsDataset [mkRecord "yes" "Kenya" "Female" "18-24" "Urban" (some 2020)] with
    hasCountry := false }

def cxKenyaSpec : FilterSpec :=
  { country := some "Kenya", years := none, gender := none, ageGroup := none
    urbanRural := none }

/-- C5 counterexample: filtering on Country when the dataset has no Country
column raises `KeyError` (the filter block of `main` never checks column
presence); it does not act as a no-op returning the records that satisfy the
remaining predicates (here: all of them). -/
theorem C5_counterexample :
    applyFilters cxNoCountry cxKenyaSpec = Except.error "KeyError: Country"
      ∧ applyFilters cxNoCountry cxKenyaSpec ≠ Except.ok cxNoCountry := by
  decide

/-- C5 amended: when the spec constrains a column that is absent from the
dataset, the filter block raises a `KeyError` instead of treating the
predicate as a no-op.  (In the app itself the selectboxes only offer
non-"All" values for columns present in the loaded dataframe, so this path
is unreachable from the UI.) -/
theorem C5_amended_keyerror_on_absent (d : Dataset) (s : FilterSpec)
    (habsent : (truthySel s.country = true ∧ d.hasCountry = false)
      ∨ (s.years.isSome = true ∧ d.hasYear = false)
      ∨ (truthySel s.gender = true ∧ d.hasGender = false)
      ∨ (truthySel s.ageGroup = true ∧ d.hasAgeGroup = false)
      ∨ (truthySel s.urbanRural = true ∧ d.hasUrbanRural = false)) :
    ∃ e, applyFilters d s = Except.error e := by
  cases happ : applyFilters d s with
  | error e => exact ⟨e, rfl⟩
  | ok out =>
    exfalso
    obtain ⟨-, hc1, hc2, hc3, hc4, hc5⟩ := applyFilters_ok happ
    rcases habsent with ⟨ht, hf⟩ | ⟨ht, hf⟩ | ⟨ht, hf⟩ | ⟨ht, hf⟩ | ⟨ht, hf⟩ <;>
      simp_all

/-- Witness for the amended C5 at a concrete dataset without a Country
column and a concrete Country selection. -/
theorem C5_amended_witness :
    (truthySel cxKenyaSpec.country = true ∧ cxNoCountry.hasCountry = false)
      ∧ ∃ e, applyFilters cxNoCountry cxKenyaSpec = Except.error e :=
  ⟨by decide, C5_amended_keyerror_on_absent cxNoCountry cxKenyaSpec (by decide)⟩

/-- C9: an active Year-range filter excludes every record whose Year is
null, whatever the bounds are — so on a dataset containing a null-Year
record the filtered result is strictly smaller than, and in particular not
content-equal to, the input. -/
theorem C9_null_year_rows_dropped (d : Dataset) (s : FilterSpec) (out : Dataset)
    (lo hi : Int) (r : Record)
    (h : applyFilters d s = Except.ok out) (hy : s.years = some (lo, hi))
    (hr : r ∈ d.records) (hnull : r.year = none) :
    out.records.length < d.records.length ∧ out.records ≠ d.records := by
  obtain ⟨hout, -⟩ := applyFilters_ok h
  have hrec : out.records = d.records.filter (satisfiesSpec s) := by rw [hout]
  have hfail : satisfiesSpec s r = false := by
    simp [satisfiesSpec, yearPred, hy, yearInRange, hnull]
  have hlt : (d.records.filter (satisfiesSpec s)).length < d.records.length := by
    rw [List.length_filter_lt_length_iff_exists]
    exact ⟨r, hr, by simp [hfail]⟩
  refine ⟨by rw [hrec]; exact hlt, ?_⟩
  intro heq
  rw [hrec] at heq
  have hlen := congrArg List.length heq
  simp only [] at hlen
  omega

def w9null : Record := mkRecord "yes" "Togo" "Female" "18-24" "Urban" none

def w9d : Dataset := allColsDataset [w3r1, w9null]

def w9s : FilterSpec :=
  { country := none, years := some (2019, 2021), gender := none, ageGroup := none
    urbanRural := none }

/-- Witness for C9: a Year range spanning the full observed range still
drops the null-Year record. -/
theorem C9_witness :
    applyFilters w9d w9s = Except.ok (allColsDataset [w3r1])
      ∧ w9s.years = some (2019, 2021)
      ∧ w9null ∈ w9d.records
      ∧ w9null.year = none
      ∧ ((allColsDataset [w3r1]).records.length < w9d.records.length
          ∧ (allColsDataset [w3r1]).records ≠ w9d.records) :=
  ⟨by decide, by decide, by decide, by decide,
    C9_null_year_rows_dropped w9d w9s (allColsDataset [w3r1]) 2019 2021 w9null
      (by decide) (by decide) (by decide) (by decide)⟩

def c1YearNoFintech : Dataset :=
  { allColsDataset [mkRecord "yes" "Kenya" "Female" "18-24" "Urban" (some 2020)] with
    hasFintechUsed := false }

/-- C1 (code bug in src/app.py line 53): on a dataset that has a Year column
but no Fintech_Used column, `kpis` raises `KeyError` instead of returning a
degraded result — the guard of line 47 is missing inside the Year branch.
Without the Year column the same dataset degrades gracefully
(fintech_count = 0). -/
theorem C1_kpis_keyerror :
    kpis c1YearNoFintech = Except.error "KeyError: Fintech_Used"
      ∧ (kpis { c1YearNoFintech with hasYear := false }).toOption.map KPI.fintechCount
          = some 0 := by
  constructor
  · rfl
  · rfl

/-- C6: the cached loader (cache contract modelled from the spec) is
idempotent and memoized per path: starting from an empty cache, both calls
return the same successfully loaded dataset, and only the first call touches
the filesystem (the read counter stays at 1 after the second call). -/
theorem C6_load_idempotent_memoized (fs : FileSystem) (path : String) (d : Dataset)
    (h : load_data fs path = Except.ok d) :
    (load_data_cached fs path { entries := [], fileReads := 0 }).1 = Except.ok d
      ∧ (load_data_cached fs path
          (load_data_cached fs path { entries := [], fileReads := 0 }).2).1 = Except.ok d
      ∧ (load_data_cached fs path { entries := [], fileReads := 0 }).2.fileReads = 1
      ∧ (load_data_cached fs path
          (load_data_cached fs path { entries := [], fileReads := 0 }).2).2.fileReads = 1 := by
  have h1 : load_data_cached fs path { entries := [], fileReads := 0 }
      = (Except.ok d, { entries := [(path, d)], fileReads := 1 }) := by
    simp [load_data_cached, h]
  have h2 : load_data_cached fs path { entries := [(path, d)], fileReads := 1 }
      = (Except.ok d, { entries := [(path, d)], fileReads := 1 }) := by
    simp [load_data_cached, List.lookup]
  rw [h1]
  rw [h2]
  exact ⟨rfl, rfl, rfl, rfl⟩

def rawW : RawFrame :=
  { hasFintechUsed := true, hasCountry := true, hasGender := true, hasAgeGroup := true
    hasUseCase1 := true, hasUseCase2 := true, hasUrbanRural := true, hasPhoneType := true
    hasBarrier := true, hasYear := true, hasMonthlyTransactions := false
    hasAvgTransactionValue := false
    records := [
      { fintechUsed := some "Yes", country := none, gender := some "Female"
        ageGroup := some "18-24", useCase1 := some "Payments", useCase2 := none
        urbanRural := some "Urban", phoneType := none, barrier := none
        year := RawCell.text "twenty20", monthlyTransactions := 7
        avgTransactionValue := 3 } ] }

def fsW : FileSystem := [("datasets/fintech_usage_africa.csv", rawW)]

def dW : Dataset :=
  { hasFintechUsed := true, hasCountry := true, hasGender := true, hasAgeGroup := true
    hasUseCase1 := true, hasUseCase2 := true, hasUrbanRural := true, hasPhoneType := true
    hasBarrier := true, hasYear := true, hasMonthlyTransactions := true
    hasAvgTransactionValue := true
    records := [
      { fintechUsed := "Yes", country := "Unknown", gender := "Female"
        ageGroup := "18-24", useCase1 := "Payments", useCase2 := "Unknown"
        urbanRural := "Urban", phoneType := "Unknown", barrier := none
        year := none, monthlyTransactions := 0, avgTransactionValue := 0 } ] }

/-- Witness for C6 at a concrete filesystem: the cleaned dataset is returned
by both calls and the file is read once. -/
theorem C6_witness :
    load_data fsW "datasets/fintech_usage_africa.csv" = Except.ok dW
      ∧ ((load_data_cached fsW "datasets/fintech_usage_africa.csv"
            { entries := [], fileReads := 0 }).1 = Except.ok dW
        ∧ (load_data_cached fsW "datasets/fintech_usage_africa.csv"
            (load_data_cached fsW "datasets/fintech_usage_africa.csv"
              { entries := [], fileReads := 0 }).2).1 = Except.ok dW
        ∧ (load_data_cached fsW "datasets/fintech_usage_africa.csv"
            { entries := [], fileReads := 0 }).2.fileReads = 1
        ∧ (load_data_cached fsW "datasets/fintech_usage_africa.csv"
            (load_data_cached fsW "datasets/fintech_usage_africa.csv"
              { entries := [], fileReads := 0 }).2).2.fileReads = 1) :=
  ⟨by decide,
    C6_load_idempotent_memoized fsW "datasets/fintech_usage_africa.csv" dW (by decide)⟩

/-- C8 amended: `load_data` fails (with DataUnavailable) exactly when the
path cannot be read; on success the Year column is coerced with unparseable
entries becoming null, the fixed list of string columns (Fintech_Used,
Country, Gender, Age_Group, Use_Case_1, Use_Case_2, Urban_Rural, Phone_Type —
not Barrier) has missing values replaced by "Unknown", Barrier is left
untouched, and the numeric columns Monthly_Transactions and
Avg_Transaction_Value exist, filled with 0 for every record when the column
was absent from the file. -/
theorem C8_amended_load_contract (fs : FileSystem) (path : String) :
    ((∃ e, load_data fs path = Except.error e) ↔ List.lookup path fs = none)
      ∧ (∀ f, List.lookup path fs = some f →
          ∃ d, load_data fs path = Except.ok d
            ∧ d.hasMonthlyTransactions = true
            ∧ d.hasAvgTransactionValue = true
            ∧ d.records.map (fun r => r.year)
                = f.records.map (fun r => coerceYear r.year)
            ∧ d.records.map (fun r => r.fintechUsed)
                = f.records.map (fun r => fillUnknown r.fintechUsed)
            ∧ d.records.map (fun r => r.country)
                = f.records.map (fun r => fillUnknown r.country)
            ∧ d.records.map (fun r => r.gender)
                = f.records.map (fun r => fillUnknown r.gender)
            ∧ d.records.map (fun r => r.ageGroup)
                = f.records.map (fun r => fillUnknown r.ageGroup)
            ∧ d.records.map (fun r => r.useCase1)
                = f.records.map (fun r => fillUnknown r.useCase1)
            ∧ d.records.map (fun r => r.useCase2)
                = f.records.map (fun r => fillUnknown r.useCase2)
            ∧ d.records.map (fun r => r.urbanRural)
                = f.records.map (fun r => fillUnknown r.urbanRural)
            ∧ d.records.map (fun r => r.phoneType)
                = f.records.map (fun r => fillUnknown r.phoneType)
            ∧ d.records.map (fun r => r.barrier)
                = f.records.map (fun r => r.barrier)
            ∧ (f.hasMonthlyTransactions = false →
                ∀ r ∈ d.records, r.monthlyTransactions = 0)
            ∧ (f.hasAvgTransactionValue = false →
                ∀ r ∈ d.records, r.avgTransactionValue = 0)) := by
  constructor
  · constructor
    · rintro ⟨e, he⟩
      cases hl : List.lookup path fs with
      | none => rfl
      | some f =>
        rw [load_data, hl] at he
        exact absurd he (by simp)
    · intro hl
      rw [load_data, hl]
      exact ⟨"DataUnavailable", rfl⟩
  · intro f hl
    refine ⟨_, by rw [load_data, hl], rfl, rfl, ?_, ?_, ?_, ?_, ?_, ?_, ?_, ?_, ?_, ?_, ?_, ?_⟩
    all_goals first
      | (rw [List.map_map]
         apply List.map_congr_left
         intro r _
         simp [cleanRecord])
      | (intro hm r hr
         simp only [List.mem_map] at hr
         obtain ⟨r0, -, hr0⟩ := hr
         rw [← hr0]
         simp [cleanRecord, hm])

def fsMissingPath : String := "missing.csv"

/-- Witness for C8 at a concrete filesystem: a missing path fails, the
present path loads. -/
theorem C8_witness :
    (∃ e, load_data fsW fsMissingPath = Except.error e)
      ∧ ∃ d, load_data fsW "datasets/fintech_usage_africa.csv" = Except.ok d := by
  constructor
  · exact (C8_amended_load_contract fsW fsMissingPath).1.mpr (by decide)
  · obtain ⟨d, hd, -⟩ :=
      (C8_amended_load_contract fsW "datasets/fintech_usage_africa.csv").2 rawW (by decide)
    exact ⟨d, hd⟩

/-- C8 counterexample: the Barrier column is present and one Barrier cell is
missing; `load_data` succeeds but leaves the value null instead of replacing
it with "Unknown" — Barrier is not in the fillna list of src/app.py
lines 29-35, so not every present string column is cleaned. -/
theorem C8_counterexample :
    rawW.hasBarrier = true
      ∧ (load_data fsW "datasets/fintech_usage_africa.csv").toOption.map
          (fun d => d.records.map (fun r => r.barrier)) = some [none]
      ∧ (load_data fsW "datasets/fintech_usage_africa.csv").toOption.map
          (fun d => d.records.map (fun r => r.barrier)) ≠ some [some "Unknown"] := by
  decide

theorem natListMean_nil : natListMean [] = 0 := by
  simp [natListMean]

theorem length_uniqueKeys_eq_card {α : Type} [DecidableEq α] (l : List α) :
    (uniqueKeys l).length = l.toFinset.card := by
  have hfin : (uniqueKeys l).toFinset = l.toFinset := by
    ext a
    simp [List.mem_toFinset, mem_uniqueKeys]
  rw [← hfin, List.toFinset_card_of_nodup (nodup_uniqueKeys l)]

/-- C2: whenever `kpis` returns, total is the record count; fintech_count is
the number of records whose Fintech_Used lowercases to "yes" (0 when the
column is absent); adoption_rate is fintech_count/total*100, 0 on an empty
dataset, and always within [0, 100]; monthly_avg_users is the mean of the
per-Year fintech-user group sizes when a Year column exists and 0 otherwise;
total_countries is the number of distinct Country values. -/
theorem C2_kpis_contract (d : Dataset) (k : KPI) (h : kpis d = Except.ok k) :
    k.total = d.records.length
      ∧ (d.hasFintechUsed = true → k.fintechCount = d.records.countP isYes)
      ∧ (d.hasFintechUsed = false → k.fintechCount = 0)
      ∧ (d.records.length ≠ 0 →
          k.adoptionRate = (k.fintechCount : ℚ) / (d.records.length : ℚ) * 100)
      ∧ (d.records = [] → k.adoptionRate = 0)
      ∧ 0 ≤ k.adoptionRate ∧ k.adoptionRate ≤ 100
      ∧ (d.hasYear = true →
          k.monthlyAvgUsers
            = natListMean ((byYearSizes (d.records.filter isYes)).map Prod.snd))
      ∧ (d.hasYear = false → k.monthlyAvgUsers = 0)
      ∧ (d.hasCountry = true →
          k.totalCountries = (d.records.map (fun r => r.country)).toFinset.card)
      ∧ (d.hasCountry = false → k.totalCountries = 0) := by
  unfold kpis at h
  split at h
  · simp at h
  next hguard =>
  have hk := Except.ok.inj h
  subst hk
  have hcle : (if d.hasFintechUsed then d.records.filter isYes else []).length
      ≤ d.records.length := by
    cases hfu : d.hasFintechUsed with
    | true => simpa using List.length_filter_le isYes d.records
    | false => simp
  refine ⟨rfl, ?_, ?_, ?_, ?_, ?_, ?_, ?_, ?_, ?_, ?_⟩
  · intro hfu
    simp [hfu, List.countP_eq_length_filter]
  · intro hfu
    simp [hfu]
  · intro htot
    simp [htot]
  · intro hnil
    simp [hnil]
  · -- 0 ≤ adoption rate
    by_cases htot : d.records.length = 0
    · simp [htot]
    · simp only [htot, if_neg, ite_false]
      positivity
  · -- adoption rate ≤ 100
    by_cases htot : d.records.length = 0
    · simp [htot]
    · simp only [htot, ite_false]
      have htq : (0:ℚ) < (d.records.length : ℚ) := by
        exact_mod_cast Nat.pos_of_ne_zero htot
      have hle : ((if d.hasFintechUsed then d.records.filter isYes else []).length : ℚ)
          ≤ (d.records.length : ℚ) := by exact_mod_cast hcle
      have hdiv : ((if d.hasFintechUsed then d.records.filter isYes else []).length : ℚ)
          / (d.records.length : ℚ) ≤ 1 := (div_le_one htq).mpr hle
      calc ((if d.hasFintechUsed then d.records.filter isYes else []).length : ℚ)
            / (d.records.length : ℚ) * 100
          ≤ 1 * 100 := by
            apply mul_le_mul_of_nonneg_right hdiv
            norm_num
        _ = 100 := by norm_num
  · intro hy
    have hfu : d.hasFintechUsed = true := by
      cases hfu : d.hasFintechUsed with
      | true => rfl
      | false => rw [hy, hfu] at hguard; simp at hguard
    by_cases hempty : (byYearSizes (d.records.filter isYes)).isEmpty = true
    · rw [List.isEmpty_iff] at hempty
      simp [hy, hfu, hempty, natListMean_nil]
    · simp only [hy, hfu, if_true, ite_true]
      rw [if_neg hempty]
  · intro hy
    simp [hy]
  · intro hc
    simp [hc, length_uniqueKeys_eq_card]
  · intro hc
    simp [hc]

def w2d : Dataset := allColsDataset [mkRecord "YES" "Kenya" "Female" "18-24" "Urban" (some 2020)]

def w2k : KPI :=
  { total := 1, fintechCount := 1, adoptionRate := 100, monthlyAvgUsers := 1
    totalCountries := 1 }

/-- Witness for C2 at a one-record dataset whose Fintech_Used is the
uppercase "YES": it still counts as a fintech user. -/
theorem C2_witness :
    kpis w2d = Except.ok w2k
      ∧ (w2k.total = w2d.records.length
        ∧ (w2d.hasFintechUsed = true → w2k.fintechCount = w2d.records.countP isYes)
        ∧ (w2d.hasFintechUsed = false → w2k.fintechCount = 0)
        ∧ (w2d.records.length ≠ 0 →
            w2k.adoptionRate = (w2k.fintechCount : ℚ) / (w2d.records.length : ℚ) * 100)
        ∧ (w2d.records = [] → w2k.adoptionRate = 0)
        ∧ 0 ≤ w2k.adoptionRate ∧ w2k.adoptionRate ≤ 100
        ∧ (w2d.hasYear = true →
            w2k.monthlyAvgUsers
              = natListMean ((byYearSizes (w2d.records.filter isYes)).map Prod.snd))
        ∧ (w2d.hasYear = false → w2k.monthlyAvgUsers = 0)
        ∧ (w2d.hasCountry = true →
            w2k.totalCountries = (w2d.records.map (fun r => r.country)).toFinset.card)
        ∧ (w2d.hasCountry = false → w2k.totalCountries = 0)) := by
  have h : kpis w2d = Except.ok w2k := by
    have hfilter : (if w2d.hasFintechUsed then w2d.records.filter isYes else [])
        = w2d.records := by decide
    have hby : byYearSizes w2d.records = [(2020, 1)] := by decide
    have hcty : (uniqueKeys (w2d.records.map (fun r => r.country))).length = 1 := by decide
    have hlen : w2d.records.length = 1 := by decide
    have hy : w2d.hasYear = true := rfl
    have hco : w2d.hasCountry = true := rfl
    simp only [kpis]
    rw [if_neg (by decide)]
    rw [hfilter, hby, hlen, hcty, hy, hco]
    norm_num [w2k, natListMean]
  exact ⟨h, C2_kpis_contract w2d w2k h⟩

instance : IsTotal Int intLe :=
  ⟨fun a b => by unfold intLe; exact Int.le_total a b⟩

instance : IsTrans Int intLe :=
  ⟨fun a b c hab hbc => by unfold intLe at hab hbc ⊢; omega⟩

theorem filter_year_of_rows (rs : List Record) (y : Int) :
    (rs.filter (fun r => r.year.isSome)).filter (fun r => decide (r.year = some y))
      = rs.filter (fun r => decide (r.year = some y)) := by
  rw [List.filter_filter]
  apply List.filter_congr
  intro a _
  cases ha : a.year <;> simp [ha]

theorem filter_year_yes_of_rows (rs : List Record) (y : Int) :
    ((rs.filter (fun r => r.year.isSome)).filter
        (fun r => decide (r.year = some y))).filter isYes
      = rs.filter (fun r => decide (r.year = some y) && isYes r) := by
  rw [List.filter_filter, List.filter_filter]
  apply List.filter_congr
  intro a _
  cases ha : a.year <;> cases hy2 : isYes a <;> simp [ha, hy2]

/-- C4: whenever the trends-page time series is produced, its years are
strictly ascending (hence duplicate-free); a year appears in it exactly when
some record has that (non-null) year, so a year with records but no fintech
users appears with fintech count 0 rather than being dropped; each row's
total is the record count of that year (always positive — a groupby key has
at least one member, so the unguarded division never divides by zero or
produces NaN), its fintech count is the yes-record count of that year, and
its adoption rate is fintech/total*100. -/
theorem C4_time_series_contract (d : Dataset) (ts : List TSRow)
    (h : time_series d = Except.ok ts) :
    (ts.map (fun row => row.year)).Sorted (· < ·)
      ∧ (∀ y : Int, (∃ r ∈ d.records, r.year = some y)
          ↔ y ∈ ts.map (fun row => row.year))
      ∧ ∀ row ∈ ts,
          0 < row.total
          ∧ row.total
              = (d.records.filter (fun r => decide (r.year = some row.year))).length
          ∧ row.fintechUsers
              = (d.records.filter
                  (fun r => decide (r.year = some row.year) && isYes r)).length
          ∧ row.adoptionRate = (row.fintechUsers : ℚ) / (row.total : ℚ) * 100 := by
  unfold time_series at h
  split at h
  case isFalse => simp at h
  split at h
  case isFalse => simp at h
  have hts := Except.ok.inj h
  subst hts
  set rows := d.records.filter (fun r => r.year.isSome) with hrows
  set ys := rows.filterMap (fun r => r.year) with hys
  set years := List.insertionSort intLe (uniqueKeys ys) with hyears
  have hmapyear : (years.map (fun y =>
      ({ year := y
         total := (rows.filter (fun r => decide (r.year = some y))).length
         fintechUsers :=
           ((rows.filter (fun r => decide (r.year = some y))).filter isYes).length
         adoptionRate :=
           (((rows.filter (fun r => decide (r.year = some y))).filter isYes).length : ℚ)
             / ((rows.filter (fun r => decide (r.year = some y))).length : ℚ)
             * 100 } : TSRow))).map (fun row => row.year) = years := by
    rw [List.map_map]
    exact List.map_id'' (fun _ => rfl) years
  have hmemy : ∀ y : Int, y ∈ years ↔ ∃ r ∈ d.records, r.year = some y := by
    intro y
    rw [hyears, List.mem_insertionSort, mem_uniqueKeys, hys, List.mem_filterMap]
    constructor
    · rintro ⟨r, hr, hry⟩
      rw [hrows] at hr
      exact ⟨r, (List.mem_filter.mp hr).1, hry⟩
    · rintro ⟨r, hr, hry⟩
      refine ⟨r, ?_, hry⟩
      rw [hrows]
      exact List.mem_filter.mpr ⟨hr, by simp [hry]⟩
  refine ⟨?_, ?_, ?_⟩
  · rw [hmapyear]
    have hsorted : List.Sorted intLe years := List.sorted_insertionSort intLe _
    have hnodup : years.Nodup :=
      (List.perm_insertionSort intLe _).nodup_iff.mpr (nodup_uniqueKeys ys)
    exact List.Pairwise.imp₂ (fun a b hle hne => lt_of_le_of_ne hle hne) hsorted hnodup
  · intro y
    rw [hmapyear]
    exact (hmemy y).symm
  · intro row hrow
    simp only [List.mem_map] at hrow
    obtain ⟨y, hy, hroweq⟩ := hrow
    have htotpos : 0 < (rows.filter (fun r => decide (r.year = some y))).length := by
      obtain ⟨r, hr, hry⟩ := (hmemy y).mp hy
      apply List.length_pos_of_mem (a := r)
      apply List.mem_filter.mpr
      refine ⟨?_, by simp [hry]⟩
      rw [hrows]
      exact List.mem_filter.mpr ⟨hr, by simp [hry]⟩
    subst hroweq
    refine ⟨htotpos, ?_, ?_, rfl⟩
    · rw [hrows]
      exact congrArg List.length (filter_year_of_rows d.records y)
    · rw [hrows]
      exact congrArg List.length (filter_year_yes_of_rows d.records y)

def w4r1 : Record := mkRecord "Yes" "Kenya" "Female" "18-24" "Urban" (some 2020)

def w4r2 : Record := mkRecord "no" "Kenya" "Male" "25-34" "Rural" (some 2020)

def w4r3 : Record := mkRecord "no" "Ghana" "Female" "35-44" "Urban" (some 2021)

def w4d : Dataset := allColsDataset [w4r1, w4r2, w4r3]

def w4ts : List TSRow :=
  [ { year := 2020, total := 2, fintechUsers := 1, adoptionRate := 50 },
    { year := 2021, total := 1, fintechUsers := 0, adoptionRate := 0 } ]

/-- Witness for C4 at a concrete dataset in which 2021 has records but no
fintech users: the year still appears, with fintech count 0. -/
theorem C4_witness :
    time_series w4d = Except.ok w4ts
      ∧ ((w4ts.map (fun row => row.year)).Sorted (· < ·)
        ∧ (∀ y : Int, (∃ r ∈ w4d.records, r.year = some y)
            ↔ y ∈ w4ts.map (fun row => row.year))
        ∧ ∀ row ∈ w4ts,
            0 < row.total
            ∧ row.total
                = (w4d.records.filter (fun r => decide (r.year = some row.year))).length
            ∧ row.fintechUsers
                = (w4d.records.filter
                    (fun r => decide (r.year = some row.year) && isYes r)).length
            ∧ row.adoptionRate = (row.fintechUsers : ℚ) / (row.total : ℚ) * 100) := by
  have h : time_series w4d = Except.ok w4ts := by
    have hyears : List.insertionSort intLe (uniqueKeys
        ((w4d.records.filter (fun r => r.year.isSome)).filterMap (fun r => r.year)))
        = [2020, 2021] := by decide
    have h20 : ((w4d.records.filter (fun r => r.year.isSome)).filter
        (fun r => decide (r.year = some 2020))).length = 2 := by decide
    have h20y : (((w4d.records.filter (fun r => r.year.isSome)).filter
        (fun r => decide (r.year = some 2020))).filter isYes).length = 1 := by decide
    have h21 : ((w4d.records.filter (fun r => r.year.isSome)).filter
        (fun r => decide (r.year = some 2021))).length = 1 := by decide
    have h21y : (((w4d.records.filter (fun r => r.year.isSome)).filter
        (fun r => decide (r.year = some 2021))).filter isYes).length = 0 := by decide
    simp only [time_series, show w4d.hasYear = true from rfl,
      show w4d.hasFintechUsed = true from rfl, if_true]
    rw [hyears]
    simp only [List.map_cons, List.map_nil]
    rw [h20, h20y, h21, h21y]
    norm_num [w4ts]
  exact ⟨h, C4_time_series_contract w4d w4ts h⟩

instance (xs : List String) : IsTotal (String × Nat) (vcRel xs) :=
  ⟨fun p q => by
    unfold vcRel
    rcases Nat.lt_trichotomy p.2 q.2 with h | h | h
    · exact Or.inr (Or.inl h)
    · rcases Nat.le_total (xs.indexOf p.1) (xs.indexOf q.1) with h2 | h2
      · exact Or.inl (Or.inr ⟨h.symm, h2⟩)
      · exact Or.inr (Or.inr ⟨h, h2⟩)
    · exact Or.inl (Or.inl h)⟩

instance (xs : List String) : IsTrans (String × Nat) (vcRel xs) :=
  ⟨fun p q r hpq hqr => by
    unfold vcRel at hpq hqr ⊢
    rcases hpq with h1 | ⟨h1, h1i⟩ <;> rcases hqr with h2 | ⟨h2, h2i⟩
    · exact Or.inl (lt_trans h2 h1)
    · exact Or.inl (by omega)
    · exact Or.inl (by omega)
    · exact Or.inr ⟨by omega, le_trans h1i h2i⟩⟩

theorem value_counts_sorted (xs : List String) :
    (value_counts xs).Sorted (vcRel xs) :=
  List.sorted_insertionSort (vcRel xs) _

theorem mem_value_counts {xs : List String} {p : String × Nat}
    (hp : p ∈ value_counts xs) : p.2 = xs.count p.1 ∧ p.1 ∈ xs := by
  unfold value_counts at hp
  rw [List.mem_insertionSort, List.mem_map] at hp
  obtain ⟨v, hv, hveq⟩ := hp
  rw [← hveq]
  exact ⟨rfl, (mem_uniqueKeys xs v).mp hv⟩

theorem mem_value_counts_of_mem {xs : List String} {v : String} (hv : v ∈ xs) :
    (v, xs.count v) ∈ value_counts xs := by
  unfold value_counts
  rw [List.mem_insertionSort, List.mem_map]
  exact ⟨v, (mem_uniqueKeys xs v).mpr hv, rfl⟩

/-- C7: `top_n_by_frequency` returns the first `n` entries of the value
counts of the column after replacing literal "nan" by "Unknown"; counts are
correct, ordered descending with ties broken by first occurrence, and every
value left out has a count no larger than any returned entry; on the
specification's example it returns [("A",3), ("B",2), ("Unknown",1)]. -/
theorem C7_top_n_by_frequency (xs : List String) (n : Nat) :
    top_n_by_frequency xs n = (value_counts (xs.map replaceNan)).take n
      ∧ (top_n_by_frequency xs n).Pairwise (fun p q => q.2 ≤ p.2)
      ∧ (top_n_by_frequency xs n).Pairwise
          (fun p q => q.2 = p.2 →
            (xs.map replaceNan).indexOf p.1 ≤ (xs.map replaceNan).indexOf q.1)
      ∧ (∀ p ∈ top_n_by_frequency xs n, p.2 = (xs.map replaceNan).count p.1)
      ∧ (∀ p ∈ top_n_by_frequency xs n, ∀ v ∈ xs.map replaceNan,
          v ∉ (top_n_by_frequency xs n).map Prod.fst →
          (xs.map replaceNan).count v ≤ p.2)
      ∧ top_n_by_frequency ["A", "A", "B", "Unknown", "B", "A"] 3
          = [("A", 3), ("B", 2), ("Unknown", 1)] := by
  have hsorted := value_counts_sorted (xs.map replaceNan)
  have htake : (top_n_by_frequency xs n).Pairwise (vcRel (xs.map replaceNan)) := by
    unfold top_n_by_frequency
    exact List.Pairwise.sublist (List.take_sublist n _) hsorted
  refine ⟨rfl, ?_, ?_, ?_, ?_, by decide⟩
  · apply htake.imp
    intro p q hpq
    rcases hpq with h | ⟨h, -⟩
    · exact le_of_lt h
    · exact le_of_eq h
  · apply htake.imp
    intro p q hpq heq
    rcases hpq with h | ⟨-, h⟩
    · omega
    · exact h
  · intro p hp
    unfold top_n_by_frequency at hp
    exact (mem_value_counts (List.mem_of_mem_take hp)).1
  · intro p hp v hv hnot
    have hmemv := mem_value_counts_of_mem hv
    have hvapp : (v, (xs.map replaceNan).count v)
        ∈ (value_counts (xs.map replaceNan)).take n
          ++ (value_counts (xs.map replaceNan)).drop n := by
      rw [List.take_append_drop]
      exact hmemv
    rcases List.mem_append.mp hvapp with hin | hin
    · exfalso
      apply hnot
      unfold top_n_by_frequency
      exact List.mem_map.mpr ⟨(v, (xs.map replaceNan).count v), hin, rfl⟩
    · have hpw : ∀ a ∈ (value_counts (xs.map replaceNan)).take n,
          ∀ b ∈ (value_counts (xs.map replaceNan)).drop n,
          vcRel (xs.map replaceNan) a b := by
        have hs2 := hsorted
        rw [← List.take_append_drop n (value_counts (xs.map replaceNan))] at hs2
        exact (List.pairwise_append.mp hs2).2.2
      have hrel := hpw p (by
        unfold top_n_by_frequency at hp
        exact hp) (v, (xs.map replaceNan).count v) hin
      rcases hrel with h | ⟨h, -⟩
      · exact le_of_lt h
      · exact le_of_eq h

theorem count_filterMap_year (rs : List Record) (y : Int) :
    (rs.filterMap (fun r => r.year)).count y
      = (rs.filter (fun r => decide (r.year = some y))).length := by
  induction rs with
  | nil => simp
  | cons r rs ih =>
    cases hr : r.year with
    | none => simp [List.filterMap_cons, hr, List.filter_cons, ih]
    | some z =>
      by_cases hzy : z = y
      · subst hzy
        simp [List.filterMap_cons, hr, List.filter_cons, ih, List.count_cons]
      · simp [List.filterMap_cons, hr, List.filter_cons, ih, List.count_cons, hzy]

theorem filterMap_year_length (rs : List Record) :
    (rs.filterMap (fun r => r.year)).length
      = (rs.filter (fun r => r.year.isSome)).length := by
  induction rs with
  | nil => rfl
  | cons r rs ih =>
    cases hr : r.year <;> simp [List.filterMap_cons, hr, List.filter_cons, ih]

theorem byYearSizes_sum (rs : List Record) :
    ((byYearSizes rs).map Prod.snd).sum
      = (rs.filter (fun r => r.year.isSome)).length := by
  unfold byYearSizes
  rw [List.map_map]
  have hcongr : ((uniqueKeys (rs.filterMap (fun r => r.year))).map
      (Prod.snd ∘ fun y => (y, (rs.filter (fun r => decide (r.year = some y))).length)))
      = (uniqueKeys (rs.filterMap (fun r => r.year))).map
          (fun y => (rs.filterMap (fun r => r.year)).count y) := by
    apply List.map_congr_left
    intro y _
    simp [count_filterMap_year]
  rw [hcongr, sum_counts_uniqueKeys, filterMap_year_length]

theorem length_split_year (rs : List Record) :
    rs.length = (rs.filter (fun r => r.year.isSome)).length
      + (rs.filter (fun r => r.year.isNone)).length := by
  induction rs with
  | nil => rfl
  | cons r rs ih =>
    cases hr : r.year <;> simp [List.filter_cons, hr, ih] <;> omega

def w10d : Dataset :=
  allColsDataset [mkRecord "yes" "Kenya" "Female" "18-24" "Urban" (some 2020),
    mkRecord "yes" "Ghana" "Male" "25-34" "Rural" none]

def w10k : KPI :=
  { total := 2, fintechCount := 2, adoptionRate := 100, monthlyAvgUsers := 1
    totalCountries := 2 }

theorem kpis_w10d_eval : kpis w10d = Except.ok w10k := by
  have hfilter : (if w10d.hasFintechUsed then w10d.records.filter isYes else [])
      = w10d.records := by decide
  have hby : byYearSizes w10d.records = [(2020, 1)] := by decide
  have hcty : (uniqueKeys (w10d.records.map (fun r => r.country))).length = 2 := by decide
  have hlen : w10d.records.length = 2 := by decide
  have hy : w10d.hasYear = true := rfl
  have hco : w10d.hasCountry = true := rfl
  simp only [kpis]
  rw [if_neg (by decide)]
  rw [hfilter, hby, hlen, hcty, hy, hco]
  norm_num [w10k, natListMean]

/-- C10: fintech_count counts every case-insensitive "yes" record, including
those with a null Year, while the per-Year grouping behind monthly_avg_users
only covers yes-records with a non-null Year (the group sizes sum to exactly
the non-null-Year yes count); and there is a dataset — one yes-record in
2020 plus one yes-record with null Year — on which monthly_avg_users (= 1)
is strictly less than the mean that would include the null-Year users
(fintech_count divided by the number of year groups, = 2). -/
theorem C10_null_year_yes_excluded (d : Dataset) (k : KPI)
    (h : kpis d = Except.ok k) (hfu : d.hasFintechUsed = true) :
    k.fintechCount
        = ((d.records.filter isYes).filter (fun r => r.year.isSome)).length
          + ((d.records.filter isYes).filter (fun r => r.year.isNone)).length
      ∧ ((byYearSizes (d.records.filter isYes)).map Prod.snd).sum
          = ((d.records.filter isYes).filter (fun r => r.year.isSome)).length
      ∧ (kpis w10d = Except.ok w10k
        ∧ w10k.monthlyAvgUsers
            < (w10k.fintechCount : ℚ)
              / ((byYearSizes (w10d.records.filter isYes)).length : ℚ)) := by
  refine ⟨?_, byYearSizes_sum _, kpis_w10d_eval, ?_⟩
  · unfold kpis at h
    split at h
    · simp at h
    have hk := Except.ok.inj h
    subst hk
    simp only [hfu, if_true, ite_true]
    exact length_split_year _
  · have hfil : w10d.records.filter isYes = w10d.records := by decide
    have hlen : (byYearSizes (w10d.records.filter isYes)).length = 1 := by
      rw [hfil]
      decide
    rw [hlen]
    norm_num [w10k]

/-- Witness for C10 at the two-record dataset with one null-Year yes user. -/
theorem C10_witness :
    kpis w10d = Except.ok w10k
      ∧ w10d.hasFintechUsed = true
      ∧ (w10k.fintechCount
          = ((w10d.records.filter isYes).filter (fun r => r.year.isSome)).length
            + ((w10d.records.filter isYes).filter (fun r => r.year.isNone)).length
        ∧ ((byYearSizes (w10d.records.filter isYes)).map Prod.snd).sum
            = ((w10d.records.filter isYes).filter (fun r => r.year.isSome)).length
        ∧ (kpis w10d = Except.ok w10k
          ∧ w10k.monthlyAvgUsers
              < (w10k.fintechCount : ℚ)
                / ((byYearSizes (w10d.records.filter isYes)).length : ℚ))) :=
  ⟨kpis_w10d_eval, rfl,
    C10_null_year_yes_excluded w10d w10k kpis_w10d_eval rfl⟩
